import Mathlib

/-!
Verification of the Qt_Learning repository material.

The repository is tutorial text whose executable content consists of
three pieces that the claims address:

1. The em-based scaled-dimension arithmetic (the "Scaled-Unit
   Calculator"): in the source, an integer `em = fm.height()` is taken
   from the font metrics and a family of dimensions is computed from it
   by C++ integer arithmetic (`em / 4`, `em / 2`, `em * 5`, `em * 2`,
   `em * 1.5` truncated to int, ...).  C++ `int` division truncates
   toward zero, which we model with `Int.tdiv`.  `em * 1.5` is computed
   in `double` and then converted to `int` (truncation toward zero);
   since `3 * em` is exactly representable in `double` for every 32-bit
   `em`, this equals `Int.tdiv (3 * em) 2`.  We model `int` by ℤ (the
   tutorial values are far from the 32-bit overflow range, and the spec
   treats the computation as exact arithmetic).

2. `MainWindow::onSubmit`, which trims the two line edits and writes
   either a warning or a "Submitted: name <email>" line to the status
   label.  QString text is modelled as `List Char`; `QString::trimmed`
   removes leading and trailing whitespace characters.

3. The Clear button lambda, which clears exactly the two line edits and
   the status label, leaving the rest of the window state alone.  The
   window state is modelled as a record of the pieces of state the
   constructor in the source sets up.
-/

namespace QtLearning

/-- The named dimensions computed from `em` in the source: the three from
the stylesheet-scaling snippet (`paddingVertical`, `paddingHorizontal`,
`minWidth`) and the seven from `main` in the fuller example
(`smallPadding` .. `iconSize`). -/
structure Dims where
  paddingVertical : ℤ
  paddingHorizontal : ℤ
  minWidth : ℤ
  smallPadding : ℤ
  mediumPadding : ℤ
  largePadding : ℤ
  buttonHeight : ℤ
  inputHeight : ℤ
  borderRadius : ℤ
  iconSize : ℤ
deriving DecidableEq, Repr

/-- The scaled-dimension arithmetic of the source, collected into one
function of the base value `em`.  `Int.tdiv` is C++ `int` division
(truncation toward zero); `inputHeight` is `em * 1.5` evaluated in
`double` and truncated to `int`, which for 32-bit `em` is exactly
`(3 * em).tdiv 2`. -/
def calcDims (em : ℤ) : Dims where
  paddingVertical := em.tdiv 4
  paddingHorizontal := em.tdiv 2
  minWidth := em * 5
  smallPadding := em.tdiv 4
  mediumPadding := em.tdiv 2
  largePadding := em
  buttonHeight := em * 2
  inputHeight := (3 * em).tdiv 2
  borderRadius := em.tdiv 4
  iconSize := em

/-- Round to the nearest integer, as the claim C1 words it
("b x ratio rounded to the nearest integer"): Mathlib `round`, which
sends halves up. -/
def roundNearest (q : ℚ) : ℤ := round q

/-- Modelled from the spec: the input of the Scaled-Unit Calculator is
"one positive numeric em value" which may also be non-finite; the source
material has no such type (it works on a raw `int` with no guard), so the
finite / non-finite distinction is taken from the words of the spec. -/
inductive Meas where
  | finite (x : ℤ)
  | posInf
  | negInf
  | nan
deriving DecidableEq, Repr

/-- Modelled from the spec: the single error kind InvalidMeasurement,
"raised when the input base measurement is non-positive, non-finite, or
otherwise unusable".  Absent from the source. -/
inductive CalcError where
  | invalidMeasurement
deriving DecidableEq, Repr

/-- A measurement is valid when it is finite and positive. -/
def Meas.isValid : Meas → Bool
  | .finite x => decide (0 < x)
  | _ => false

/-- The underlying numeric value of a finite measurement (0 otherwise). -/
def Meas.base : Meas → ℤ
  | .finite x => x
  | _ => 0

/-- Modelled from the spec: the guarded Scaled-Unit Calculator.  The
source computes the dimensions with no input guard (the spec itself
notes "the source material does not guard this; an implementer should
add the guard"); following the spec, a zero, negative or non-finite base
fails with InvalidMeasurement and no partial mapping is produced. -/
def calcChecked (m : Meas) : Except CalcError Dims :=
  match m with
  | .finite x =>
      if 0 < x then Except.ok (calcDims x)
      else Except.error CalcError.invalidMeasurement
  | _ => Except.error CalcError.invalidMeasurement

/-- The application-level state the fuller example touches: the global
stylesheet set by setStyleSheet.  The dimension computation itself only
reads `em` and writes fresh locals. -/
structure AppState where
  appStyleSheet : List Char
deriving DecidableEq, Repr

/-- One invocation of the scaled-dimension computation with the ambient
application state threaded through: the source statements
`int smallPadding = em / 4; ...` assign fresh locals and read nothing
but `em`, so the ambient state passes through untouched. -/
def invokeCalc (em : ℤ) (st : AppState) : Dims × AppState :=
  (calcDims em, st)

/-- QString text, as a sequence of characters. -/
abbrev QStr := List Char

/-- Space characters in the sense of QChar::isSpace, which
QString::trimmed removes from both ends: the ASCII whitespace range
U+0009..U+000D, the space, U+0085, U+00A0, and the Unicode separator
characters. -/
def qtIsSpace (c : Char) : Bool :=
  (9 ≤ c.toNat && c.toNat ≤ 13) || c = ' ' || c.toNat = 0x85 || c.toNat = 0xA0 ||
  c.toNat = 0x1680 || (0x2000 ≤ c.toNat && c.toNat ≤ 0x200A) ||
  c.toNat = 0x2028 || c.toNat = 0x2029 || c.toNat = 0x202F ||
  c.toNat = 0x205F || c.toNat = 0x3000

/-- QString::trimmed: remove leading and trailing space characters. -/
def qtTrimmed (s : QStr) : QStr :=
  ((s.dropWhile qtIsSpace).reverse.dropWhile qtIsSpace).reverse

/-- The warning text onSubmit writes when a field is empty. -/
def warnText : QStr := "⚠ Please fill in all fields.".data

/-- The text of QString("Submitted: %1 <%2>").arg(name, email): the two
place markers of the literal pattern replaced, in one pass, by the two
arguments. -/
def submittedText (name email : QStr) : QStr :=
  "Submitted: ".data ++ name ++ " <".data ++ email ++ ">".data

/-- The window state the MainWindow constructor in the source sets up:
title and size, the layout spacing, the centred status label, and the
texts of the two line edits and the status label. -/
structure WindowState where
  windowTitle : QStr
  windowWidth : ℤ
  windowHeight : ℤ
  layoutSpacing : ℤ
  statusAlignCenter : Bool
  nameEditText : QStr
  emailEditText : QStr
  statusLabelText : QStr
deriving DecidableEq, Repr

/-- MainWindow::onSubmit: trim both line edits; if either is empty set
the status label to the warning, otherwise to
"Submitted: name <email>". -/
def onSubmit (s : WindowState) : WindowState :=
  let name := qtTrimmed s.nameEditText
  let email := qtTrimmed s.emailEditText
  if name.isEmpty || email.isEmpty then
    { s with statusLabelText := warnText }
  else
    { s with statusLabelText := submittedText name email }

/-- The Clear button lambda: m_nameEdit, m_emailEdit and m_statusLabel
are cleared; nothing else is touched. -/
def clearClicked (s : WindowState) : WindowState :=
  { s with nameEditText := [], emailEditText := [], statusLabelText := [] }

lemma tdiv_mono_of_nonneg {x y d : ℤ} (hx : 0 ≤ x) (hxy : x ≤ y) (hd : 0 < d) :
    x.tdiv d ≤ y.tdiv d := by
  rw [Int.tdiv_eq_ediv hx hd.le, Int.tdiv_eq_ediv (hx.trans hxy) hd.le]
  exact Int.ediv_le_ediv hd hxy

lemma tdiv_eq_floor_div (a d : ℤ) (ha : 0 ≤ a) (hd : 0 < d) :
    a.tdiv d = ⌊(a : ℚ) / (d : ℚ)⌋ := by
  rw [Int.tdiv_eq_ediv ha hd.le]
  obtain ⟨n, rfl⟩ : ∃ n : ℕ, d = (n : ℤ) := ⟨d.toNat, by omega⟩
  rw [show (((n : ℤ)) : ℚ) = ((n : ℕ) : ℚ) by push_cast; ring]
  exact (Rat.floor_intCast_div_natCast a n).symm

lemma submittedText_head (name email : QStr) :
    (submittedText name email).head? = some 'S' := rfl

lemma warnText_head : warnText.head? = some '⚠' := rfl

lemma submittedText_ne_warnText (name email : QStr) :
    submittedText name email ≠ warnText := by
  intro h
  have h1 := submittedText_head name email
  rw [h, warnText_head] at h1
  exact absurd (Option.some.inj h1) (by decide)

/-- Claim C1 counterexample: at base value 3 the quarter dimension the code
computes is trunc(3/4) = 0, while round(3 x 1/4) = 1, so the derived
dimension is not round(b x ratio). -/
theorem c1_round_counterexample :
    (calcDims 3).smallPadding = 0 ∧ roundNearest ((3 : ℚ) * (1/4)) = 1 ∧
    (calcDims 3).smallPadding ≠ roundNearest ((3 : ℚ) * (1/4)) := by
  have h2 : roundNearest ((3 : ℚ) * (1/4)) = 1 := by
    rw [roundNearest, round_eq, show ((3 : ℚ) * (1/4) + 1/2) = 5/4 by norm_num]
    rw [Int.floor_eq_iff]
    norm_num
  exact ⟨rfl, h2, by rw [h2]; decide⟩

/-- Claim C1 (amended): for every positive integer base value b, each of
the five fixed-ratio dimensions (quarter, half, double, 1.5x, 5x) is a
non-negative integer equal to the floor of b x ratio — the source
truncates (integer division and double-to-int conversion both round
toward zero), it does not round to the nearest integer. -/
theorem calcDims_eq_floor_ratio (b : ℤ) (hb : 0 < b) :
    ((calcDims b).smallPadding = ⌊(b : ℚ) * (1/4)⌋ ∧ 0 ≤ (calcDims b).smallPadding) ∧
    ((calcDims b).mediumPadding = ⌊(b : ℚ) * (1/2)⌋ ∧ 0 ≤ (calcDims b).mediumPadding) ∧
    ((calcDims b).buttonHeight = ⌊(b : ℚ) * 2⌋ ∧ 0 ≤ (calcDims b).buttonHeight) ∧
    ((calcDims b).inputHeight = ⌊(b : ℚ) * (3/2)⌋ ∧ 0 ≤ (calcDims b).inputHeight) ∧
    ((calcDims b).minWidth = ⌊(b : ℚ) * 5⌋ ∧ 0 ≤ (calcDims b).minWidth) := by
  have hb' : (0 : ℤ) ≤ b := hb.le
  simp only [calcDims]
  refine ⟨⟨?_, ?_⟩, ⟨?_, ?_⟩, ⟨?_, ?_⟩, ⟨?_, ?_⟩, ⟨?_, ?_⟩⟩
  · rw [tdiv_eq_floor_div b 4 hb' (by norm_num)]
    congr 1; push_cast; ring
  · exact Int.tdiv_nonneg hb' (by norm_num)
  · rw [tdiv_eq_floor_div b 2 hb' (by norm_num)]
    congr 1; push_cast; ring
  · exact Int.tdiv_nonneg hb' (by norm_num)
  · rw [show ((b : ℚ) * 2) = (((b * 2 : ℤ)) : ℚ) by push_cast; ring, Int.floor_intCast]
  · omega
  · rw [tdiv_eq_floor_div (3 * b) 2 (by omega) (by norm_num)]
    congr 1; push_cast; ring
  · exact Int.tdiv_nonneg (by omega) (by norm_num)
  · rw [show ((b : ℚ) * 5) = (((b * 5 : ℤ)) : ℚ) by push_cast; ring, Int.floor_intCast]
  · omega

/-- Witness for the amended C1 at the concrete base value 16. -/
theorem calcDims_eq_floor_ratio_holds :
    (0 : ℤ) < 16 ∧
    (((calcDims 16).smallPadding = ⌊(16 : ℚ) * (1/4)⌋ ∧ 0 ≤ (calcDims 16).smallPadding) ∧
    ((calcDims 16).mediumPadding = ⌊(16 : ℚ) * (1/2)⌋ ∧ 0 ≤ (calcDims 16).mediumPadding) ∧
    ((calcDims 16).buttonHeight = ⌊(16 : ℚ) * 2⌋ ∧ 0 ≤ (calcDims 16).buttonHeight) ∧
    ((calcDims 16).inputHeight = ⌊(16 : ℚ) * (3/2)⌋ ∧ 0 ≤ (calcDims 16).inputHeight) ∧
    ((calcDims 16).minWidth = ⌊(16 : ℚ) * 5⌋ ∧ 0 ≤ (calcDims 16).minWidth)) :=
  ⟨by decide, calcDims_eq_floor_ratio 16 (by decide)⟩

/-- Claim C2: a measurement that is zero, negative or non-finite fails
with InvalidMeasurement and produces no mapping; a positive finite
measurement succeeds with the full mapping and does not raise the
error. -/
theorem calcChecked_guard (m : Meas) :
    (m.isValid = true → calcChecked m = Except.ok (calcDims m.base)) ∧
    (m.isValid = false → calcChecked m = Except.error CalcError.invalidMeasurement) := by
  cases m with
  | finite x =>
      constructor
      · intro h
        have hx : 0 < x := by simpa [Meas.isValid] using h
        simp [calcChecked, Meas.base, hx]
      · intro h
        have hx : ¬ 0 < x := by simpa [Meas.isValid] using h
        simp [calcChecked, hx]
  | posInf => exact ⟨fun h => by simp [Meas.isValid] at h, fun _ => rfl⟩
  | negInf => exact ⟨fun h => by simp [Meas.isValid] at h, fun _ => rfl⟩
  | nan => exact ⟨fun h => by simp [Meas.isValid] at h, fun _ => rfl⟩

/-- Witness for C2: base 16 succeeds; base 0 and a non-finite input fail
with InvalidMeasurement. -/
theorem calcChecked_guard_holds :
    calcChecked (Meas.finite 16) = Except.ok (calcDims 16) ∧
    calcChecked (Meas.finite 0) = Except.error CalcError.invalidMeasurement ∧
    calcChecked Meas.nan = Except.error CalcError.invalidMeasurement :=
  ⟨(calcChecked_guard (Meas.finite 16)).1 (by decide),
   (calcChecked_guard (Meas.finite 0)).2 (by decide),
   (calcChecked_guard Meas.nan).2 (by decide)⟩

/-- Claim C3: for positive base values b1 < b2, every derived dimension
at b1 is at most the corresponding dimension at b2. -/
theorem calcDims_monotone (b₁ b₂ : ℤ) (hb : 0 < b₁) (h : b₁ < b₂) :
    (calcDims b₁).paddingVertical ≤ (calcDims b₂).paddingVertical ∧
    (calcDims b₁).paddingHorizontal ≤ (calcDims b₂).paddingHorizontal ∧
    (calcDims b₁).minWidth ≤ (calcDims b₂).minWidth ∧
    (calcDims b₁).smallPadding ≤ (calcDims b₂).smallPadding ∧
    (calcDims b₁).mediumPadding ≤ (calcDims b₂).mediumPadding ∧
    (calcDims b₁).largePadding ≤ (calcDims b₂).largePadding ∧
    (calcDims b₁).buttonHeight ≤ (calcDims b₂).buttonHeight ∧
    (calcDims b₁).inputHeight ≤ (calcDims b₂).inputHeight ∧
    (calcDims b₁).borderRadius ≤ (calcDims b₂).borderRadius ∧
    (calcDims b₁).iconSize ≤ (calcDims b₂).iconSize := by
  have hb' : (0 : ℤ) ≤ b₁ := hb.le
  have hle : b₁ ≤ b₂ := h.le
  simp only [calcDims]
  refine ⟨tdiv_mono_of_nonneg hb' hle (by norm_num),
    tdiv_mono_of_nonneg hb' hle (by norm_num), by omega,
    tdiv_mono_of_nonneg hb' hle (by norm_num),
    tdiv_mono_of_nonneg hb' hle (by norm_num), hle, by omega,
    tdiv_mono_of_nonneg (x := 3 * b₁) (by omega) (by omega) (by norm_num),
    tdiv_mono_of_nonneg hb' hle (by norm_num), hle⟩

/-- Witness for C3 at the concrete pair 16 < 32. -/
theorem calcDims_monotone_holds :
    (0 : ℤ) < 16 ∧ (16 : ℤ) < 32 ∧
    ((calcDims 16).paddingVertical ≤ (calcDims 32).paddingVertical ∧
    (calcDims 16).paddingHorizontal ≤ (calcDims 32).paddingHorizontal ∧
    (calcDims 16).minWidth ≤ (calcDims 32).minWidth ∧
    (calcDims 16).smallPadding ≤ (calcDims 32).smallPadding ∧
    (calcDims 16).mediumPadding ≤ (calcDims 32).mediumPadding ∧
    (calcDims 16).largePadding ≤ (calcDims 32).largePadding ∧
    (calcDims 16).buttonHeight ≤ (calcDims 32).buttonHeight ∧
    (calcDims 16).inputHeight ≤ (calcDims 32).inputHeight ∧
    (calcDims 16).borderRadius ≤ (calcDims 32).borderRadius ∧
    (calcDims 16).iconSize ≤ (calcDims 32).iconSize) :=
  ⟨by decide, by decide, calcDims_monotone 16 32 (by decide) (by decide)⟩

/-- Claim C4: the computation is a pure, deterministic function of the
base value: it leaves the ambient application state unchanged, and its
result does not depend on that state, so two invocations with the same
base value return identical mappings. -/
theorem invokeCalc_pure (em : ℤ) (st st' : AppState) :
    (invokeCalc em st).2 = st ∧ (invokeCalc em st).1 = (invokeCalc em st').1 :=
  ⟨rfl, rfl⟩

/-- Claim C5: base value 16 yields quarter 4, half 8, double 32,
1.5x 24 and 5x 80. -/
theorem calcDims_base16 :
    (calcDims 16).smallPadding = 4 ∧ (calcDims 16).mediumPadding = 8 ∧
    (calcDims 16).buttonHeight = 32 ∧ (calcDims 16).inputHeight = 24 ∧
    (calcDims 16).minWidth = 80 := by decide

/-- Claim C6: base value 32 yields quarter 8, half 16, double 64,
1.5x 48 and 5x 160, each exactly twice the corresponding dimension at
base 16. -/
theorem calcDims_base32 :
    ((calcDims 32).smallPadding = 8 ∧ (calcDims 32).mediumPadding = 16 ∧
    (calcDims 32).buttonHeight = 64 ∧ (calcDims 32).inputHeight = 48 ∧
    (calcDims 32).minWidth = 160) ∧
    ((calcDims 32).smallPadding = 2 * (calcDims 16).smallPadding ∧
    (calcDims 32).mediumPadding = 2 * (calcDims 16).mediumPadding ∧
    (calcDims 32).buttonHeight = 2 * (calcDims 16).buttonHeight ∧
    (calcDims 32).inputHeight = 2 * (calcDims 16).inputHeight ∧
    (calcDims 32).minWidth = 2 * (calcDims 16).minWidth) := by decide

/-- Claim C7: base value 20 yields quarter 5, half 10, double 40,
1.5x 30 and 5x 100. -/
theorem calcDims_base20 :
    (calcDims 20).smallPadding = 5 ∧ (calcDims 20).mediumPadding = 10 ∧
    (calcDims 20).buttonHeight = 40 ∧ (calcDims 20).inputHeight = 30 ∧
    (calcDims 20).minWidth = 100 := by decide

/-- Claim C8: for every positive base value, every one of the computed
dimensions is a non-negative integer. -/
theorem calcDims_nonneg (b : ℤ) (hb : 0 < b) :
    0 ≤ (calcDims b).paddingVertical ∧
    0 ≤ (calcDims b).paddingHorizontal ∧
    0 ≤ (calcDims b).minWidth ∧
    0 ≤ (calcDims b).smallPadding ∧
    0 ≤ (calcDims b).mediumPadding ∧
    0 ≤ (calcDims b).largePadding ∧
    0 ≤ (calcDims b).buttonHeight ∧
    0 ≤ (calcDims b).inputHeight ∧
    0 ≤ (calcDims b).borderRadius ∧
    0 ≤ (calcDims b).iconSize := by
  have hb' : (0 : ℤ) ≤ b := hb.le
  simp only [calcDims]
  refine ⟨Int.tdiv_nonneg hb' (by norm_num), Int.tdiv_nonneg hb' (by norm_num),
    by omega, Int.tdiv_nonneg hb' (by norm_num), Int.tdiv_nonneg hb' (by norm_num),
    hb', by omega, Int.tdiv_nonneg (by omega) (by norm_num),
    Int.tdiv_nonneg hb' (by norm_num), hb'⟩

/-- Witness for C8 at the concrete base value 16. -/
theorem calcDims_nonneg_holds :
    (0 : ℤ) < 16 ∧
    (0 ≤ (calcDims 16).paddingVertical ∧
    0 ≤ (calcDims 16).paddingHorizontal ∧
    0 ≤ (calcDims 16).minWidth ∧
    0 ≤ (calcDims 16).smallPadding ∧
    0 ≤ (calcDims 16).mediumPadding ∧
    0 ≤ (calcDims 16).largePadding ∧
    0 ≤ (calcDims 16).buttonHeight ∧
    0 ≤ (calcDims 16).inputHeight ∧
    0 ≤ (calcDims 16).borderRadius ∧
    0 ≤ (calcDims 16).iconSize) :=
  ⟨by decide, calcDims_nonneg 16 (by decide)⟩

/-- Claim C9: onSubmit writes the warning text exactly when the trimmed
name or the trimmed email is empty (so whitespace-only input counts as
empty); otherwise it writes "Submitted: " followed by the trimmed name,
a space, and the trimmed email in angle brackets. -/
theorem onSubmit_status (s : WindowState) :
    ((onSubmit s).statusLabelText = warnText ↔
      qtTrimmed s.nameEditText = [] ∨ qtTrimmed s.emailEditText = []) ∧
    (qtTrimmed s.nameEditText ≠ [] → qtTrimmed s.emailEditText ≠ [] →
      (onSubmit s).statusLabelText =
        submittedText (qtTrimmed s.nameEditText) (qtTrimmed s.emailEditText)) := by
  by_cases hn : qtTrimmed s.nameEditText = []
  · exact ⟨by simp [onSubmit, hn], fun h _ => absurd hn h⟩
  · by_cases he : qtTrimmed s.emailEditText = []
    · exact ⟨by simp [onSubmit, hn, he], fun _ h => absurd he h⟩
    · constructor
      · simp only [onSubmit, List.isEmpty_eq_false.mpr hn, List.isEmpty_eq_false.mpr he,
          Bool.or_self, Bool.false_eq_true, if_false]
        simp only [hn, he, or_self, iff_false]
        exact submittedText_ne_warnText _ _
      · intro _ _
        simp [onSubmit, List.isEmpty_eq_false.mpr hn, List.isEmpty_eq_false.mpr he]

/-- The window state right after the MainWindow constructor: title and
size set, spacing 12, centred status label, both edits and the status
label empty. -/
def wsDemo : WindowState :=
  ⟨"Qt Layout Demo".data, 400, 200, 12, true, [], [], []⟩

/-- wsDemo with a name needing trimming and a valid email typed in. -/
def wsFilled : WindowState :=
  { wsDemo with nameEditText := " Ann ".data, emailEditText := "ann@example.com".data }

/-- Witness for C9: the fresh window (both edits empty) gets the
warning; a state with non-blank name and email gets the submitted
line. -/
theorem onSubmit_status_holds :
    (onSubmit wsDemo).statusLabelText = warnText ∧
    qtTrimmed (" Ann ".data) ≠ [] ∧
    (onSubmit wsFilled).statusLabelText =
      submittedText (qtTrimmed (" Ann ".data)) (qtTrimmed ("ann@example.com".data)) :=
  ⟨(onSubmit_status wsDemo).1.mpr (Or.inl (by decide)),
   by decide,
   (onSubmit_status wsFilled).2 (by decide) (by decide)⟩

/-- Claim C10: the Clear button handler empties exactly the name edit,
the email edit and the status label, and leaves every other component of
the window state unchanged. -/
theorem clearClicked_frame (s : WindowState) :
    (clearClicked s).nameEditText = [] ∧
    (clearClicked s).emailEditText = [] ∧
    (clearClicked s).statusLabelText = [] ∧
    (clearClicked s).windowTitle = s.windowTitle ∧
    (clearClicked s).windowWidth = s.windowWidth ∧
    (clearClicked s).windowHeight = s.windowHeight ∧
    (clearClicked s).layoutSpacing = s.layoutSpacing ∧
    (clearClicked s).statusAlignCenter = s.statusAlignCenter :=
  ⟨rfl, rfl, rfl, rfl, rfl, rfl, rfl, rfl⟩

end QtLearning
